import Mathlib

/-
Verification of the PostHog alert-detector core
(`posthog/tasks/alerts/detectors/`): the data model, the series
transforms, the three detector algorithms (z-score, MAD, threshold) and
the detector registry, embedded shallowly in Lean.

Modelling conventions:
* Python floats are idealized as exact rationals (`ℚ`); the literals
  `1e-12`, `3.5`, `0.6745` denote the corresponding exact rationals.
* Python lists of floats become `List ℚ`; Python ints become `ℤ`.
* Code that can raise returns `Except PyErr _`; code that cannot raise is
  a plain function.
* `statistics.pstdev` takes a real square root; since the square root of
  a rational is irrational in general, the model uses `ratSqrt`, which is
  the exact square root whenever the population variance is the square of
  a rational (as it is at every concrete input used below) and an
  unspecified rational otherwise.  No theorem below depends on the value
  of `ratSqrt` beyond inputs where it is exact.
* Python `f"..."` numeric formatting (`:.1f`, `:+.1f`) is idealized as
  the exact decimal/fraction rendering of the rational; no property below
  depends on the digits of a rendered number.
-/

/-- Python runtime errors that the embedded code can raise: `AttributeError`
(attribute lookup on an object that lacks it) and `KeyError` (dict lookup
miss, raised by `_REGISTRY[name]`). -/
inductive PyErr where
  | attributeError (attr : String)
  | keyError (key : String)
deriving DecidableEq, Repr

/-- Modelled from the spec: `AlertEvaluationResult` is imported from
`posthog.tasks.alerts.utils`, a module that is not under src/.  Per spec §3
it carries `value` (optional float, the computed statistic, absent when
there is insufficient data) and `breaches` (ordered list of human-readable
strings).  `zscore.py` line 80 additionally passes a `raw_value` keyword,
modelled as an optional field defaulting to `none`. -/
structure AlertEvaluationResult where
  value : Option ℚ := none
  breaches : List String := []
  raw_value : Option ℚ := none
deriving DecidableEq, Repr

/-- `DetectorContext` from `base.py` lines 9-14: the raw series (most
recent observation last) and an optional label. -/
structure DetectorContext where
  series : List ℚ
  label : Option String := none
deriving DecidableEq, Repr

/-- `ZScoreConfig` from `zscore.py` lines 11-19, with the source's default
values. -/
structure ZScoreConfig where
  type : String := "zscore"
  window : ℤ := 30
  «on» : String := "value"
  z_threshold : ℚ := 3.0
  two_tailed : Bool := true
  direction : String := "both"
  min_points : ℤ := 10
deriving DecidableEq, Repr

/-- `MADConfig` from `mad.py` lines 11-18, with the source's default
values. -/
structure MADConfig where
  type : String := "mad"
  window : ℤ := 30
  «on» : String := "value"
  k : ℚ := 3.5
  direction : String := "both"
  min_points : ℤ := 10
deriving DecidableEq, Repr

/-- `ThresholdBounds` from `threshold.py` lines 11-14. -/
structure ThresholdBounds where
  lower : Option ℚ := none
  upper : Option ℚ := none
deriving DecidableEq, Repr

/-- `ThresholdConfig` from `threshold.py` lines 17-23; `two_tailed` is
"kept for symmetry" per the source comment. -/
structure ThresholdConfig where
  type : String := "threshold"
  «on» : String := "value"
  bounds : ThresholdBounds := {}
  two_tailed : Bool := true
deriving DecidableEq, Repr

/-- The literal `1e-12` used by all three detectors, as an exact
rational. -/
def eps : ℚ := 1e-12

/-- Integer square root by exhaustive search (largest `k` with
`k * k ≤ n`); structurally recursive so that it reduces inside the
kernel.  Only ever applied to small numerators/denominators here. -/
def isqrt (n : ℕ) : ℕ :=
  ((List.range (n + 1)).filter (fun k => decide (k * k ≤ n))).getLastD 0

/-- Square root on `ℚ`, exact whenever the argument is the square of a
rational (numerator and denominator of the reduced form are then perfect
squares); an unspecified rational otherwise.  Stands in for the real
square root inside `pstdev`. -/
def ratSqrt (q : ℚ) : ℚ := (isqrt q.num.toNat : ℚ) / (isqrt q.den : ℚ)

/-- `statistics.mean`: sum divided by length (exact). -/
def mean (l : List ℚ) : ℚ := l.sum / (l.length : ℚ)

/-- Population variance (denominator `n`), the square of
`statistics.pstdev`. -/
def pvariance (l : List ℚ) : ℚ :=
  (l.map (fun v => (v - mean l) ^ 2)).sum / (l.length : ℚ)

/-- `statistics.pstdev`: population standard deviation, the square root
of the population variance (denominator `n`, not `n - 1`). -/
def pstdev (l : List ℚ) : ℚ := ratSqrt (pvariance l)

/-- `statistics.median`: middle element of the sorted copy, averaging the
two central elements for even length.  (Python raises on an empty list;
the detectors only call this on non-empty baselines, and the model
returns the junk value 0 there.) -/
def median (l : List ℚ) : ℚ :=
  let s := List.insertionSort (fun a b => a ≤ b) l
  let n := l.length
  if n % 2 = 1 then s.getD (n / 2) 0
  else (s.getD (n / 2 - 1) 0 + s.getD (n / 2) 0) / 2

/-- Python's `l[i:]` slice for an arbitrary (possibly negative) start
index: a negative start counts from the end, clamped at 0. -/
def pySliceFrom (i : ℤ) (l : List ℚ) : List ℚ :=
  if i ≥ 0 then l.drop i.toNat else l.drop (l.length - (-i).toNat)

/-- Python's `str.lower()` (ASCII case folding suffices for the
direction strings compared here). -/
def strLower (s : String) : String := String.mk (s.data.map Char.toLower)

/-- The nested `transform` closure of `zscore.py` lines 28-33 and
`mad.py` lines 27-32 (the two are textually identical and depend only on
`config.«on»`, so they are hoisted to one top-level function): `"value"`
returns the series unchanged, `"delta"` the pairwise differences
`[b - a for a, b in zip(seq[:-1], seq[1:])]`, and any other value of
`on` falls through and returns the series unchanged. -/
def transformValueDelta («on» : String) (seq : List ℚ) : List ℚ :=
  if «on» = "value" then seq
  else if «on» = "delta" then (seq.dropLast.zip seq.tail).map (fun ab => ab.2 - ab.1)
  else seq

/-- The nested `transform` closure of `threshold.py` lines 31-42: like
`transformValueDelta` but with an additional `"pct_delta"` branch
computing `(b - a) / denom` with `denom = a if abs(a) > 1e-12 else
1e-12`. -/
def transformThreshold («on» : String) (seq : List ℚ) : List ℚ :=
  if «on» = "value" then seq
  else if «on» = "delta" then (seq.dropLast.zip seq.tail).map (fun ab => ab.2 - ab.1)
  else if «on» = "pct_delta" then
    (seq.dropLast.zip seq.tail).map
      (fun ab => (ab.2 - ab.1) / (if |ab.1| > eps then ab.1 else eps))
  else seq

/-- `ctx.get_latest_value()` as called by `zscore.py` line 55 and
`mad.py` line 51: `DetectorContext` in `base.py` defines no such method
(nor does any other file under src/), so in Python the attribute lookup
raises `AttributeError`. -/
def DetectorContext.get_latest_value (_ctx : DetectorContext) : Except PyErr ℚ :=
  .error (.attributeError "get_latest_value")

/-- `ctx.get_previous_value()` as called by `zscore.py` line 58 and
`mad.py` line 54: likewise undefined on `DetectorContext`, so the lookup
raises `AttributeError`. -/
def DetectorContext.get_previous_value (_ctx : DetectorContext) : Except PyErr ℚ :=
  .error (.attributeError "get_previous_value")

/-- Modelled from the spec: the intended behaviour of the missing
`DetectorContext.get_latest_value` accessor.  The method is called by
`zscore.py`/`mad.py` but defined nowhere under src/; spec §7 requires
evaluation never to raise, and the breach messages use it as "the raw
metric value for context", i.e. the most recent raw observation
(`base.py`: "raw series with most recent at index -1"). -/
def DetectorContext.latestValueFixed (ctx : DetectorContext) : ℚ :=
  ctx.series.getLastD 0

/-- Modelled from the spec: the intended behaviour of the missing
`DetectorContext.get_previous_value` accessor — the second-most-recent
raw observation (`series[-2]`). -/
def DetectorContext.previousValueFixed (ctx : DetectorContext) : ℚ :=
  ctx.series.dropLast.getLastD 0

/-- `x = transform(series)` in `zscore.py` line 35. -/
def zscoreX (ctx : DetectorContext) (config : ZScoreConfig) : List ℚ :=
  transformValueDelta config.«on» ctx.series

/-- The window tail of `zscore.py` line 39:
`x[-config.window - 1:] if len(x) > config.window + 1 else x`. -/
def zscoreTail (ctx : DetectorContext) (config : ZScoreConfig) : List ℚ :=
  if ((zscoreX ctx config).length : ℤ) > config.window + 1 then
    pySliceFrom (-config.window - 1) (zscoreX ctx config)
  else zscoreX ctx config

/-- `sigma = pstdev(baseline) if len(baseline) > 1 else 0.0`
(`zscore.py` line 46). -/
def zscoreSigma (baseline : List ℚ) : ℚ :=
  if baseline.length > 1 then pstdev baseline else 0

/-- The z statistic of `zscore.py` lines 43-47: `current` is the last
tail element, `baseline` all preceding tail elements, and
`z = (current - mean(baseline)) / (sigma + 1e-12)`. -/
def zscoreZ (ctx : DetectorContext) (config : ZScoreConfig) : ℚ :=
  ((zscoreTail ctx config).getLastD 0 - mean (zscoreTail ctx config).dropLast) /
    (zscoreSigma (zscoreTail ctx config).dropLast + eps)

/-- `direction = (config.direction or "both").lower()` (`zscore.py`
line 51): the empty string is the only falsy `str`, so `or` substitutes
`"both"` exactly when `config.direction` is empty. -/
def zscoreDirection (config : ZScoreConfig) : String :=
  strLower (if config.direction = "" then "both" else config.direction)

/-- Modelled from the spec: the `metric_context` string of `zscore.py`
lines 54-62 computed with the intended values of the missing accessors
(`latestValueFixed` / `previousValueFixed`). -/
def zscoreMetricContextFixed (ctx : DetectorContext) (config : ZScoreConfig) : String :=
  let latest_value := ctx.latestValueFixed
  let previous_value := ctx.previousValueFixed
  let delta_value := latest_value - previous_value
  if config.«on» = "delta" then
    s!"delta from {previous_value} to {latest_value} (Δ={delta_value})"
  else
    s!"value {latest_value}"

/-- The breach block of `zscore.py` lines 66-79: two-sided when
`direction == "both" or config.two_tailed`, upward-only when
`direction == "up"`, downward-only when `direction == "down"`, otherwise
no branch appends. -/
def zscoreBreachMessages (direction : String) (two_tailed : Bool) (z thr : ℚ)
    (window : ℤ) (metric_context : String) : List String :=
  if direction = "both" ∨ two_tailed then
    if |z| ≥ thr then
      [s!"Z-score alert: Metric {metric_context} has z-score {z}σ exceeding threshold ±{thr}σ (window: {window} periods)"]
    else []
  else if direction = "up" then
    if z ≥ thr then
      [s!"Z-score alert: Metric {metric_context} has z-score {z}σ exceeding upward threshold +{thr}σ (window: {window} periods)"]
    else []
  else if direction = "down" then
    if z ≤ -thr then
      [s!"Z-score alert: Metric {metric_context} has z-score {z}σ exceeding downward threshold -{thr}σ (window: {window} periods)"]
    else []
  else []

/-- `ZScoreDetectorImpl.evaluate` (`zscore.py` lines 23-80) as the code
stands: the three data guards return an empty result; past them the code
computes `z` and then calls `ctx.get_latest_value()` (and, for
`on == "delta"`, `ctx.get_previous_value()`), attribute lookups that
raise `AttributeError`, so the trailing message/result construction is
unreachable. -/
def ZScoreDetectorImpl.evaluate (ctx : DetectorContext) (config : ZScoreConfig) :
    Except PyErr AlertEvaluationResult :=
  if (ctx.series.length : ℤ) < max 2 config.min_points then
    .ok { value := none, breaches := [] }
  else if ((zscoreX ctx config).length : ℤ) < max 2 config.min_points then
    .ok { value := none, breaches := [] }
  else if (zscoreTail ctx config).length < 2 then
    .ok { value := none, breaches := [] }
  else do
    let latest_value ← ctx.get_latest_value
    let metric_context ←
      if config.«on» = "delta" then do
        let previous_value ← ctx.get_previous_value
        let delta_value := latest_value - previous_value
        pure s!"delta from {previous_value} to {latest_value} (Δ={delta_value})"
      else
        pure s!"value {latest_value}"
    pure { value := some (zscoreZ ctx config),
           breaches := zscoreBreachMessages (zscoreDirection config) config.two_tailed
             (zscoreZ ctx config) (|config.z_threshold|)
             (if config.window = 0 then 30 else config.window) metric_context,
           raw_value := some latest_value }

/-- Modelled from the spec: `ZScoreDetectorImpl.evaluate` with the two
missing `DetectorContext` accessors replaced by their intended values
(`latestValueFixed` / `previousValueFixed`); every other line follows
`zscore.py` lines 23-80 exactly as `ZScoreDetectorImpl.evaluate` does.
This is the evaluation the spec and the repository's own tests
describe. -/
def ZScoreDetectorImpl.evaluateFixed (ctx : DetectorContext) (config : ZScoreConfig) :
    AlertEvaluationResult :=
  if (ctx.series.length : ℤ) < max 2 config.min_points then
    { value := none, breaches := [] }
  else if ((zscoreX ctx config).length : ℤ) < max 2 config.min_points then
    { value := none, breaches := [] }
  else if (zscoreTail ctx config).length < 2 then
    { value := none, breaches := [] }
  else
    { value := some (zscoreZ ctx config),
      breaches := zscoreBreachMessages (zscoreDirection config) config.two_tailed
        (zscoreZ ctx config) (|config.z_threshold|)
        (if config.window = 0 then 30 else config.window)
        (zscoreMetricContextFixed ctx config),
      raw_value := some ctx.latestValueFixed }

/-- The window tail of `mad.py` line 35 (same slice expression as the
z-score detector; note `mad.py` has no re-check of `min_points` against
the transformed series between the transform and this slice). -/
def madTail (ctx : DetectorContext) (config : MADConfig) : List ℚ :=
  if ((transformValueDelta config.«on» ctx.series).length : ℤ) > config.window + 1 then
    pySliceFrom (-config.window - 1) (transformValueDelta config.«on» ctx.series)
  else transformValueDelta config.«on» ctx.series

/-- The robust statistic of `mad.py` lines 39-43: `m = median(baseline)`,
`mad = median(|v - m|)`, `robust = 0.6745 * (current - m) / (mad + 1e-12)`. -/
def madRobust (ctx : DetectorContext) (config : MADConfig) : ℚ :=
  let tail := madTail ctx config
  let current := tail.getLastD 0
  let baseline := tail.dropLast
  let m := median baseline
  let mad := median (baseline.map (fun v => |v - m|))
  0.6745 * (current - m) / (mad + eps)

/-- `direction = (config.direction or "both").lower()` (`mad.py`
line 47). -/
def madDirection (config : MADConfig) : String :=
  strLower (if config.direction = "" then "both" else config.direction)

/-- Modelled from the spec: the `metric_context` string of `mad.py`
lines 50-58 computed with the intended values of the missing accessors. -/
def madMetricContextFixed (ctx : DetectorContext) (config : MADConfig) : String :=
  let latest_value := ctx.latestValueFixed
  let previous_value := ctx.previousValueFixed
  let delta_value := latest_value - previous_value
  if config.«on» = "delta" then
    s!"delta from {previous_value} to {latest_value} (Δ={delta_value})"
  else
    s!"value {latest_value}"

/-- The breach block of `mad.py` lines 60-74: two-sided when
`direction == "both"`, upward-only when `direction == "up"`,
downward-only when `direction == "down"`, otherwise no branch appends
(there is no `two_tailed` in `MADConfig`). -/
def madBreachMessages (direction : String) (robust thr : ℚ)
    (window : ℤ) (metric_context : String) : List String :=
  if direction = "both" then
    if |robust| ≥ thr then
      [s!"MAD alert: Metric {metric_context} has robust score {robust} exceeding threshold ±{thr} (window: {window} periods)"]
    else []
  else if direction = "up" then
    if robust ≥ thr then
      [s!"MAD alert: Metric {metric_context} has robust score {robust} exceeding upward threshold +{thr} (window: {window} periods)"]
    else []
  else if direction = "down" then
    if robust ≤ -thr then
      [s!"MAD alert: Metric {metric_context} has robust score {robust} exceeding downward threshold -{thr} (window: {window} periods)"]
    else []
  else []

/-- `MADDetectorImpl.evaluate` (`mad.py` lines 22-76) as the code
stands: the raw-length guard and the tail-length guard return an empty
result (there is no re-check of `min_points` against the transformed
series); past them the code computes `robust` and then calls the missing
`ctx.get_latest_value()`, raising `AttributeError`. -/
def MADDetectorImpl.evaluate (ctx : DetectorContext) (config : MADConfig) :
    Except PyErr AlertEvaluationResult :=
  if (ctx.series.length : ℤ) < max 2 config.min_points then
    .ok { value := none, breaches := [] }
  else if (madTail ctx config).length < 2 then
    .ok { value := none, breaches := [] }
  else do
    let latest_value ← ctx.get_latest_value
    let metric_context ←
      if config.«on» = "delta" then do
        let previous_value ← ctx.get_previous_value
        let delta_value := latest_value - previous_value
        pure s!"delta from {previous_value} to {latest_value} (Δ={delta_value})"
      else
        pure s!"value {latest_value}"
    pure { value := some (madRobust ctx config),
           breaches := madBreachMessages (madDirection config) (madRobust ctx config)
             (|config.k|) (if config.window = 0 then 30 else config.window) metric_context }

/-- Modelled from the spec: `MADDetectorImpl.evaluate` with the two
missing `DetectorContext` accessors replaced by their intended values;
every other line follows `mad.py` lines 22-76 exactly as
`MADDetectorImpl.evaluate` does. -/
def MADDetectorImpl.evaluateFixed (ctx : DetectorContext) (config : MADConfig) :
    AlertEvaluationResult :=
  if (ctx.series.length : ℤ) < max 2 config.min_points then
    { value := none, breaches := [] }
  else if (madTail ctx config).length < 2 then
    { value := none, breaches := [] }
  else
    { value := some (madRobust ctx config),
      breaches := madBreachMessages (madDirection config) (madRobust ctx config)
        (|config.k|) (if config.window = 0 then 30 else config.window)
        (madMetricContextFixed ctx config) }

/-- The last transformed element the threshold detector scores
(`threshold.py` line 44), as a total function (junk 0 on an empty
transformed series, which `evaluate` never scores). -/
def thresholdCurrent (ctx : DetectorContext) (config : ThresholdConfig) : ℚ :=
  (transformThreshold config.«on» ctx.series).getLastD 0

/-- The `< lower` check of `threshold.py` lines 48-49: one breach string
when `bounds.lower` is set and `current` is below it, nothing
otherwise. -/
def thresholdLowerMsgs (config : ThresholdConfig) (current : ℚ) : List String :=
  match config.bounds.lower with
  | some l => if current < l then [s!"value {current} < lower {l}"] else []
  | none => []

/-- The `> upper` check of `threshold.py` lines 50-51: one breach string
when `bounds.upper` is set and `current` is above it, nothing
otherwise. -/
def thresholdUpperMsgs (config : ThresholdConfig) (current : ℚ) : List String :=
  match config.bounds.upper with
  | some u => if current > u then [s!"value {current} > upper {u}"] else []
  | none => []

/-- `ThresholdDetectorImpl.evaluate` (`threshold.py` lines 26-53):
empty series gives an empty result; otherwise `current` is the last
transformed element (`None` if the transform emptied the series), the
`< lower` and `> upper` checks fire independently, and
`value = current`.  This detector calls no missing attribute, so it
cannot raise. -/
def ThresholdDetectorImpl.evaluate (ctx : DetectorContext) (config : ThresholdConfig) :
    AlertEvaluationResult :=
  if ctx.series = [] then { value := none, breaches := [] }
  else
    match (transformThreshold config.«on» ctx.series).getLast? with
    | none => { value := none, breaches := [] }
    | some current =>
      { value := some current,
        breaches := thresholdLowerMsgs config current ++ thresholdUpperMsgs config current }

/-- The three registered implementations (`zscore.py` line 83,
`mad.py` line 79, `threshold.py` line 56 each register a singleton
instance). -/
inductive DetectorKind where
  | zscore
  | mad
  | threshold
deriving DecidableEq, Repr

/-- `register_detector` (`base.py` lines 30-31): `_REGISTRY[name] =
detector`, i.e. store/overwrite the binding for `name`.  The module-level
dict is modelled by explicit state passing (`String → Option α`). -/
def register_detector {α : Type} (reg : String → Option α) (name : String)
    (detector : α) : String → Option α :=
  fun n => if n = name then some detector else reg n

/-- `get_detector` (`base.py` lines 34-35): `return _REGISTRY[name]`,
which raises `KeyError` when `name` has no binding. -/
def get_detector {α : Type} (reg : String → Option α) (name : String) :
    Except PyErr α :=
  match reg name with
  | some d => .ok d
  | none => .error (.keyError name)

/-- `_REGISTRY` (`base.py` line 27) starts empty. -/
def emptyRegistry : String → Option DetectorKind := fun _ => none

/-- The registry after the three module-load registrations. -/
def loadedRegistry : String → Option DetectorKind :=
  register_detector
    (register_detector (register_detector emptyRegistry "zscore" .zscore) "mad" .mad)
    "threshold" .threshold

set_option maxRecDepth 8000

/-- Equality on `Except` results is decidable (Python code either returns
a result or raises a specific error, and both sides are comparable). -/
instance {ε α : Type} [DecidableEq ε] [DecidableEq α] : DecidableEq (Except ε α) := fun x y =>
  match x, y with
  | .ok a, .ok b =>
      if h : a = b then .isTrue (congrArg Except.ok h)
      else .isFalse (fun hh => h (Except.ok.inj hh))
  | .error a, .error b =>
      if h : a = b then .isTrue (congrArg Except.error h)
      else .isFalse (fun hh => h (Except.error.inj hh))
  | .ok _, .error _ => .isFalse (fun hh => Except.noConfusion hh)
  | .error _, .ok _ => .isFalse (fun hh => Except.noConfusion hh)

/-- The percent-delta series exactly as the spec states it (§4.1): the
`n-1` values `(series[i] - series[i-1]) / denom`, where
`denom = series[i-1]` unless `|series[i-1]| <= 1e-12`, in which case
`denom = 1e-12`.  Spec-side restatement, for comparison with the
transforms translated from the code. -/
def pctDeltaSpec (seq : List ℚ) : List ℚ :=
  (List.range (seq.length - 1)).map (fun i =>
    (seq.getD (i + 1) 0 - seq.getD i 0) /
      (if |seq.getD i 0| ≤ eps then eps else seq.getD i 0))

theorem denom_if_comm (a : ℚ) :
    (if |a| > eps then a else eps) = (if |a| ≤ eps then eps else a) := by
  split_ifs with h1 h2 <;> first | rfl | linarith

theorem zip_consecutive_eq_range (f : ℚ → ℚ → ℚ) (seq : List ℚ) :
    (seq.dropLast.zip seq.tail).map (fun ab => f ab.1 ab.2) =
      (List.range (seq.length - 1)).map (fun i => f (seq.getD i 0) (seq.getD (i + 1) 0)) := by
  induction seq with
  | nil => rfl
  | cons a s ih =>
    cases s with
    | nil => rfl
    | cons b s2 =>
      have ih2 := ih
      simp only [List.length_cons, Nat.add_sub_cancel] at ih2 ⊢
      rw [List.range_succ_eq_map, List.map_cons, List.map_map]
      show f a b :: ((b :: s2 : List ℚ).dropLast.zip (b :: s2).tail).map (fun ab => f ab.1 ab.2) = _
      rw [ih2]
      apply congrArg
      apply List.map_congr_left
      intro i _
      rfl

theorem zscoreBreachMessages_ne_nil (d : String) (b : Bool) (z thr : ℚ)
    (w : ℤ) (mc : String) :
    zscoreBreachMessages d b z thr w mc ≠ [] ↔
      (if d = "both" ∨ b then |z| ≥ thr
       else if d = "up" then z ≥ thr
       else if d = "down" then z ≤ -thr
       else False) := by
  unfold zscoreBreachMessages
  split_ifs <;> simp [*]

theorem madBreachMessages_ne_nil (d : String) (r thr : ℚ) (w : ℤ) (mc : String) :
    madBreachMessages d r thr w mc ≠ [] ↔
      (if d = "both" then |r| ≥ thr
       else if d = "up" then r ≥ thr
       else if d = "down" then r ≤ -thr
       else False) := by
  unfold madBreachMessages
  split_ifs <;> simp [*]

theorem zscore_evaluate_of_guards (ctx : DetectorContext) (cfg : ZScoreConfig)
    (h1 : ¬ ((ctx.series.length : ℤ) < max 2 cfg.min_points))
    (h2 : ¬ (((zscoreX ctx cfg).length : ℤ) < max 2 cfg.min_points))
    (h3 : ¬ ((zscoreTail ctx cfg).length < 2)) :
    ZScoreDetectorImpl.evaluate ctx cfg = .error (.attributeError "get_latest_value") := by
  unfold ZScoreDetectorImpl.evaluate
  rw [if_neg h1, if_neg h2, if_neg h3]
  rfl

theorem zscore_evaluateFixed_of_guards (ctx : DetectorContext) (cfg : ZScoreConfig)
    (h1 : ¬ ((ctx.series.length : ℤ) < max 2 cfg.min_points))
    (h2 : ¬ (((zscoreX ctx cfg).length : ℤ) < max 2 cfg.min_points))
    (h3 : ¬ ((zscoreTail ctx cfg).length < 2)) :
    ZScoreDetectorImpl.evaluateFixed ctx cfg =
      { value := some (zscoreZ ctx cfg),
        breaches := zscoreBreachMessages (zscoreDirection cfg) cfg.two_tailed
          (zscoreZ ctx cfg) (|cfg.z_threshold|)
          (if cfg.window = 0 then 30 else cfg.window)
          (zscoreMetricContextFixed ctx cfg),
        raw_value := some ctx.latestValueFixed } := by
  unfold ZScoreDetectorImpl.evaluateFixed
  rw [if_neg h1, if_neg h2, if_neg h3]

theorem mad_evaluate_of_guards (ctx : DetectorContext) (cfg : MADConfig)
    (h1 : ¬ ((ctx.series.length : ℤ) < max 2 cfg.min_points))
    (h2 : ¬ ((madTail ctx cfg).length < 2)) :
    MADDetectorImpl.evaluate ctx cfg = .error (.attributeError "get_latest_value") := by
  unfold MADDetectorImpl.evaluate
  rw [if_neg h1, if_neg h2]
  rfl

theorem mad_evaluateFixed_of_guards (ctx : DetectorContext) (cfg : MADConfig)
    (h1 : ¬ ((ctx.series.length : ℤ) < max 2 cfg.min_points))
    (h2 : ¬ ((madTail ctx cfg).length < 2)) :
    MADDetectorImpl.evaluateFixed ctx cfg =
      { value := some (madRobust ctx cfg),
        breaches := madBreachMessages (madDirection cfg) (madRobust ctx cfg)
          (|cfg.k|) (if cfg.window = 0 then 30 else cfg.window)
          (madMetricContextFixed ctx cfg) } := by
  unfold MADDetectorImpl.evaluateFixed
  rw [if_neg h1, if_neg h2]

/-- C1 (code_bug): at the input of the repository's own test
`test_zscore_value_two_tailed_fires` (and its MAD analogue) — inputs on
which all data guards pass — `evaluate` of the z-score and MAD detectors
does not return an `AlertEvaluationResult` but raises
`AttributeError` at `ctx.get_latest_value()`, a method `DetectorContext`
does not define.  The spec requires evaluation never to crash. -/
theorem zscore_mad_evaluate_raise_attribute_error :
    ZScoreDetectorImpl.evaluate ⟨[0, 1, -1, 2, -2, 1, -1, 10], none⟩
        { window := 6, z_threshold := 3.0, min_points := 2 } =
      .error (.attributeError "get_latest_value") ∧
    MADDetectorImpl.evaluate ⟨[0, 1, -1, 2, -2, 1, -1, 10], none⟩
        { window := 6, k := 3.0, min_points := 2 } =
      .error (.attributeError "get_latest_value") :=
  ⟨zscore_evaluate_of_guards _ _ (by decide) (by decide) (by decide),
   mad_evaluate_of_guards _ _ (by decide) (by decide)⟩

/-- The context of the C2 counterexample: a flat series ending in a
downward spike. -/
def c2ctx : DetectorContext := ⟨[0, 0, 0, 0, -5], none⟩

/-- The config of the C2 counterexample: `two_tailed := false` with the
default `direction := "both"`. -/
def c2cfg : ZScoreConfig :=
  { window := 3, z_threshold := 2, two_tailed := false, min_points := 2 }

/-- C2 (counterexample): with `two_tailed = false` and the default
`direction = "both"`, a downward spike (the computed z is at most `-2`,
i.e. `z ≤ -|z_threshold|`) still produces a breach, both at the level of
the full (accessor-fixed) evaluation and at the level of the breach
block translated verbatim from `zscore.py` lines 66-79 — refuting
"breach exactly when `z ≥ |z_threshold|`" and "a downward spike with
`two_tailed=False` produces no breach". -/
theorem zscore_downward_spike_fires_despite_two_tailed_false :
    (ZScoreDetectorImpl.evaluateFixed c2ctx c2cfg).breaches ≠ [] ∧
    (ZScoreDetectorImpl.evaluateFixed c2ctx c2cfg).value.getD 0 ≤ -2 ∧
    zscoreBreachMessages "both" false (-5 / eps) 2 3 "value -5" ≠ [] :=
  ⟨by with_unfolding_all decide, by with_unfolding_all decide, by with_unfolding_all decide⟩

/-- C2 (amended): whenever the z-score data guards pass, a breach is
appended iff the `direction`-dependent rule of `zscore.py` lines 66-79
fires: two-sided (`|z| ≥ thr`) when `direction = "both"` (the default)
or `two_tailed`; upward-only (`z ≥ thr`) when `direction = "up"`;
downward-only (`z ≤ -thr`) when `direction = "down"`; never otherwise.
`two_tailed = false` alone does not make the check upward-only. -/
theorem zscore_breach_rule_depends_on_direction (ctx : DetectorContext) (cfg : ZScoreConfig)
    (h1 : ¬ ((ctx.series.length : ℤ) < max 2 cfg.min_points))
    (h2 : ¬ (((zscoreX ctx cfg).length : ℤ) < max 2 cfg.min_points))
    (h3 : ¬ ((zscoreTail ctx cfg).length < 2)) :
    (ZScoreDetectorImpl.evaluateFixed ctx cfg).breaches ≠ [] ↔
      (if zscoreDirection cfg = "both" ∨ cfg.two_tailed then |zscoreZ ctx cfg| ≥ |cfg.z_threshold|
       else if zscoreDirection cfg = "up" then zscoreZ ctx cfg ≥ |cfg.z_threshold|
       else if zscoreDirection cfg = "down" then zscoreZ ctx cfg ≤ -|cfg.z_threshold|
       else False) := by
  rw [zscore_evaluateFixed_of_guards ctx cfg h1 h2 h3]
  exact zscoreBreachMessages_ne_nil _ _ _ _ _ _

/-- C2 (witness): the amended breach rule instantiated at the
counterexample input. -/
theorem zscore_breach_rule_witness :
    (ZScoreDetectorImpl.evaluateFixed c2ctx c2cfg).breaches ≠ [] ↔
      (if zscoreDirection c2cfg = "both" ∨ c2cfg.two_tailed then |zscoreZ c2ctx c2cfg| ≥ |c2cfg.z_threshold|
       else if zscoreDirection c2cfg = "up" then zscoreZ c2ctx c2cfg ≥ |c2cfg.z_threshold|
       else if zscoreDirection c2cfg = "down" then zscoreZ c2ctx c2cfg ≤ -|c2cfg.z_threshold|
       else False) :=
  zscore_breach_rule_depends_on_direction c2ctx c2cfg (by decide) (by decide) (by decide)

/-- The context of the C3 counterexample: a flat series ending in a
downward outlier. -/
def c3ctx : DetectorContext := ⟨[0, 0, 0, -5], none⟩

/-- The config of the C3 counterexample: `direction := "up"`. -/
def c3cfg : MADConfig := { window := 3, k := 2, direction := "up", min_points := 2 }

/-- C3 (counterexample): `MADConfig` does carry a `direction` field, and
with `direction = "up"` the check is one-sided: here `|robust| ≥ |k|`
(the robust score is a large negative number) yet no breach is appended
— refuting "breach iff `|robust| ≥ |k|`" and "no configuration of
MADConfig yields a one-sided check". -/
theorem mad_direction_up_gives_one_sided_check :
    (MADDetectorImpl.evaluateFixed c3ctx c3cfg).breaches = [] ∧
    |(MADDetectorImpl.evaluateFixed c3ctx c3cfg).value.getD 0| ≥ |c3cfg.k| :=
  ⟨by with_unfolding_all decide, by with_unfolding_all decide⟩

/-- C3 (amended): whenever the MAD data guards pass, a breach is
appended iff the `direction`-dependent rule of `mad.py` lines 60-74
fires: two-sided (`|robust| ≥ |k|`) when `direction = "both"` (the
default); upward-only when `direction = "up"`; downward-only when
`direction = "down"`; never otherwise. -/
theorem mad_breach_rule_depends_on_direction (ctx : DetectorContext) (cfg : MADConfig)
    (h1 : ¬ ((ctx.series.length : ℤ) < max 2 cfg.min_points))
    (h2 : ¬ ((madTail ctx cfg).length < 2)) :
    (MADDetectorImpl.evaluateFixed ctx cfg).breaches ≠ [] ↔
      (if madDirection cfg = "both" then |madRobust ctx cfg| ≥ |cfg.k|
       else if madDirection cfg = "up" then madRobust ctx cfg ≥ |cfg.k|
       else if madDirection cfg = "down" then madRobust ctx cfg ≤ -|cfg.k|
       else False) := by
  rw [mad_evaluateFixed_of_guards ctx cfg h1 h2]
  exact madBreachMessages_ne_nil _ _ _ _ _

/-- C3 (witness): the amended MAD breach rule instantiated at the
counterexample input. -/
theorem mad_breach_rule_witness :
    (MADDetectorImpl.evaluateFixed c3ctx c3cfg).breaches ≠ [] ↔
      (if madDirection c3cfg = "both" then |madRobust c3ctx c3cfg| ≥ |c3cfg.k|
       else if madDirection c3cfg = "up" then madRobust c3ctx c3cfg ≥ |c3cfg.k|
       else if madDirection c3cfg = "down" then madRobust c3ctx c3cfg ≤ -|c3cfg.k|
       else False) :=
  mad_breach_rule_depends_on_direction c3ctx c3cfg (by decide) (by decide)

/-- C4 (counterexample): an `on = "pct_delta"` selection is not the
spec's length-`n-1` percent-delta series in the z-score/MAD transform —
there it falls through and returns the 2-element series unchanged,
while the threshold transform does compute `[(3-1)/1] = [2]`. -/
theorem pct_delta_ignored_by_zscore_mad_transform :
    transformValueDelta "pct_delta" [(1 : ℚ), 3] = [1, 3] ∧
    transformThreshold "pct_delta" [(1 : ℚ), 3] = [2] :=
  ⟨by with_unfolding_all decide, by with_unfolding_all decide⟩

/-- C4 (amended): only the threshold detector's transform implements
`pct_delta`, and there it equals the spec's formula (`pctDeltaSpec`,
length `n-1`, epsilon-substituted denominator); in the z-score and MAD
transform, `"pct_delta"` is an unknown `on` value that falls back to
returning the series unchanged. -/
theorem pct_delta_only_in_threshold_transform (seq : List ℚ) :
    transformThreshold "pct_delta" seq = pctDeltaSpec seq ∧
    (transformThreshold "pct_delta" seq).length = seq.length - 1 ∧
    transformValueDelta "pct_delta" seq = seq := by
  have hmain : transformThreshold "pct_delta" seq = pctDeltaSpec seq := by
    unfold transformThreshold
    rw [if_neg (by decide), if_neg (by decide), if_pos rfl]
    refine (zip_consecutive_eq_range
      (fun a b => (b - a) / (if |a| > eps then a else eps)) seq).trans ?_
    unfold pctDeltaSpec
    apply List.map_congr_left
    intro i _
    rw [denom_if_comm]
  refine ⟨hmain, ?_, ?_⟩
  · rw [hmain]
    simp [pctDeltaSpec]
  · unfold transformValueDelta
    rw [if_neg (by decide), if_neg (by decide)]

/-- C5 (counterexample): `series = [0,0,0]`, `min_points = 3`,
`on = "delta"`: the raw guard passes (3 ≥ 3) and the transformed series
`[0,0]` has fewer than `max(2, min_points) = 3` elements, yet MAD does
not return the empty result — the accessor-fixed evaluation returns
`value = some 0`, and the code as it stands raises `AttributeError`;
neither is `value=None, breaches=[]`. -/
theorem mad_skips_transformed_length_recheck :
    ((transformValueDelta "delta" [0, 0, 0]).length : ℤ) < max 2 (3 : ℤ) ∧
    (MADDetectorImpl.evaluateFixed ⟨[0, 0, 0], none⟩ { min_points := 3, «on» := "delta" }).value =
      some 0 ∧
    MADDetectorImpl.evaluate ⟨[0, 0, 0], none⟩ { min_points := 3, «on» := "delta" } =
      .error (.attributeError "get_latest_value") :=
  ⟨by decide, by with_unfolding_all decide,
   mad_evaluate_of_guards _ _ (by decide) (by decide)⟩

/-- C5 (amended): MAD applies the `max(2, min_points)` guard only to the
raw series; after the transform it requires only a tail of at least 2
elements, and then always produces a robust score (never the empty
result).  The z-score detector, by contrast, does re-check
`max(2, min_points)` against the transformed series and returns the
empty result when that re-check fails. -/
theorem mad_no_recheck_zscore_rechecks :
    (∀ (ctx : DetectorContext) (cfg : MADConfig),
        ¬ ((ctx.series.length : ℤ) < max 2 cfg.min_points) →
        ¬ ((madTail ctx cfg).length < 2) →
        (MADDetectorImpl.evaluateFixed ctx cfg).value = some (madRobust ctx cfg)) ∧
    (∀ (ctx : DetectorContext) (cfg : ZScoreConfig),
        ((zscoreX ctx cfg).length : ℤ) < max 2 cfg.min_points →
        ZScoreDetectorImpl.evaluate ctx cfg = .ok { value := none, breaches := [] }) := by
  constructor
  · intro ctx cfg h1 h2
    rw [mad_evaluateFixed_of_guards ctx cfg h1 h2]
  · intro ctx cfg h2
    unfold ZScoreDetectorImpl.evaluate
    by_cases h1 : (ctx.series.length : ℤ) < max 2 cfg.min_points
    · rw [if_pos h1]
    · rw [if_neg h1, if_pos h2]

/-- C5 (witness): the amended statement at the counterexample input (MAD
proceeds; z-score on the same input returns the empty result). -/
theorem mad_no_recheck_witness :
    (MADDetectorImpl.evaluateFixed ⟨[0, 0, 0], none⟩ { min_points := 3, «on» := "delta" }).value =
      some (madRobust ⟨[0, 0, 0], none⟩ { min_points := 3, «on» := "delta" }) ∧
    ZScoreDetectorImpl.evaluate ⟨[0, 0, 0], none⟩ { min_points := 3, «on» := "delta" } =
      .ok { value := none, breaches := [] } :=
  ⟨mad_no_recheck_zscore_rechecks.1 _ _ (by decide) (by decide),
   mad_no_recheck_zscore_rechecks.2 _ _ (by decide)⟩

/-- C6 (code_bug): whenever all z-score data guards pass, the z the code
computes is exactly `(current - mean(baseline)) / (pstdev(baseline) +
1e-12)` over the window tail (second conjunct, on the accessor-fixed
evaluation) — but `evaluate` as the code stands then raises
`AttributeError` instead of returning it (first conjunct). -/
theorem zscore_value_formula_and_crash (ctx : DetectorContext) (cfg : ZScoreConfig)
    (h1 : ¬ ((ctx.series.length : ℤ) < max 2 cfg.min_points))
    (h2 : ¬ (((zscoreX ctx cfg).length : ℤ) < max 2 cfg.min_points))
    (h3 : ¬ ((zscoreTail ctx cfg).length < 2)) :
    ZScoreDetectorImpl.evaluate ctx cfg = .error (.attributeError "get_latest_value") ∧
    (ZScoreDetectorImpl.evaluateFixed ctx cfg).value =
      some (((zscoreTail ctx cfg).getLastD 0 - mean (zscoreTail ctx cfg).dropLast) /
        ((if (zscoreTail ctx cfg).dropLast.length > 1 then
            pstdev (zscoreTail ctx cfg).dropLast else 0) + eps)) := by
  refine ⟨zscore_evaluate_of_guards ctx cfg h1 h2 h3, ?_⟩
  rw [zscore_evaluateFixed_of_guards ctx cfg h1 h2 h3]
  rfl

/-- C6 (witness): the formula-and-crash statement at a concrete input on
which all guards pass. -/
theorem zscore_value_formula_witness :
    ZScoreDetectorImpl.evaluate ⟨[1, 2, 3, 4], none⟩ { min_points := 2 } =
      .error (.attributeError "get_latest_value") ∧
    (ZScoreDetectorImpl.evaluateFixed ⟨[1, 2, 3, 4], none⟩ { min_points := 2 }).value =
      some (((zscoreTail ⟨[1, 2, 3, 4], none⟩ { min_points := 2 }).getLastD 0 -
          mean (zscoreTail ⟨[1, 2, 3, 4], none⟩ { min_points := 2 }).dropLast) /
        ((if (zscoreTail ⟨[1, 2, 3, 4], none⟩ { min_points := 2 }).dropLast.length > 1 then
            pstdev (zscoreTail ⟨[1, 2, 3, 4], none⟩ { min_points := 2 }).dropLast else 0) + eps)) :=
  zscore_value_formula_and_crash _ _ (by decide) (by decide) (by decide)

theorem thresholdLowerMsgs_ne_nil (cfg : ThresholdConfig) (x : ℚ) :
    thresholdLowerMsgs cfg x ≠ [] ↔ ∃ l, cfg.bounds.lower = some l ∧ x < l := by
  cases h : cfg.bounds.lower with
  | none => simp [thresholdLowerMsgs, h]
  | some l =>
    by_cases hx : x < l
    · simp [thresholdLowerMsgs, h, hx]
    · simp [thresholdLowerMsgs, h, hx]

theorem thresholdUpperMsgs_ne_nil (cfg : ThresholdConfig) (x : ℚ) :
    thresholdUpperMsgs cfg x ≠ [] ↔ ∃ u, cfg.bounds.upper = some u ∧ x > u := by
  cases h : cfg.bounds.upper with
  | none => simp [thresholdUpperMsgs, h]
  | some u =>
    by_cases hx : x > u
    · simp [thresholdUpperMsgs, h, hx]
    · simp [thresholdUpperMsgs, h, hx]

theorem thresholdLowerMsgs_length (cfg : ThresholdConfig) (x : ℚ) :
    (thresholdLowerMsgs cfg x).length ≤ 1 := by
  cases h : cfg.bounds.lower with
  | none => simp [thresholdLowerMsgs, h]
  | some l =>
    by_cases hx : x < l
    · simp [thresholdLowerMsgs, h, hx]
    · simp [thresholdLowerMsgs, h, hx]

theorem thresholdUpperMsgs_length (cfg : ThresholdConfig) (x : ℚ) :
    (thresholdUpperMsgs cfg x).length ≤ 1 := by
  cases h : cfg.bounds.upper with
  | none => simp [thresholdUpperMsgs, h]
  | some u =>
    by_cases hx : x > u
    · simp [thresholdUpperMsgs, h, hx]
    · simp [thresholdUpperMsgs, h, hx]

theorem threshold_evaluate_eq (ctx : DetectorContext) (cfg : ThresholdConfig) (c : ℚ)
    (h1 : ctx.series ≠ [])
    (hc : (transformThreshold cfg.«on» ctx.series).getLast? = some c) :
    ThresholdDetectorImpl.evaluate ctx cfg =
      { value := some c,
        breaches := thresholdLowerMsgs cfg c ++ thresholdUpperMsgs cfg c } := by
  unfold ThresholdDetectorImpl.evaluate
  rw [if_neg h1, hc]

/-- C7: for a non-empty series whose transformed series is non-empty,
the threshold detector returns the last transformed element as `value`;
its breach list is exactly the `< lower` message (iff `bounds.lower` is
set and `current` is below it) followed by the `> upper` message (iff
`bounds.upper` is set and `current` is above it); the two checks are
independent, giving at most two breach strings. -/
theorem threshold_value_and_breaches (ctx : DetectorContext) (cfg : ThresholdConfig)
    (h1 : ctx.series ≠ [])
    (h2 : transformThreshold cfg.«on» ctx.series ≠ []) :
    (ThresholdDetectorImpl.evaluate ctx cfg).value = some (thresholdCurrent ctx cfg) ∧
    (ThresholdDetectorImpl.evaluate ctx cfg).breaches =
      thresholdLowerMsgs cfg (thresholdCurrent ctx cfg) ++
        thresholdUpperMsgs cfg (thresholdCurrent ctx cfg) ∧
    (ThresholdDetectorImpl.evaluate ctx cfg).breaches.length ≤ 2 ∧
    ((ThresholdDetectorImpl.evaluate ctx cfg).breaches ≠ [] ↔
      ((∃ l, cfg.bounds.lower = some l ∧ thresholdCurrent ctx cfg < l) ∨
       (∃ u, cfg.bounds.upper = some u ∧ thresholdCurrent ctx cfg > u))) := by
  obtain ⟨c, hc⟩ : ∃ c, (transformThreshold cfg.«on» ctx.series).getLast? = some c := by
    cases hgl : (transformThreshold cfg.«on» ctx.series).getLast? with
    | none => exact absurd (List.getLast?_eq_none_iff.mp hgl) h2
    | some c => exact ⟨c, rfl⟩
  have hcur : thresholdCurrent ctx cfg = c := by
    unfold thresholdCurrent
    rw [List.getLastD_eq_getLast?, hc]
    rfl
  rw [threshold_evaluate_eq ctx cfg c h1 hc, hcur]
  refine ⟨rfl, rfl, ?_, ?_⟩
  · calc (thresholdLowerMsgs cfg c ++ thresholdUpperMsgs cfg c).length
        = (thresholdLowerMsgs cfg c).length + (thresholdUpperMsgs cfg c).length :=
          List.length_append _ _
      _ ≤ 1 + 1 :=
          Nat.add_le_add (thresholdLowerMsgs_length cfg c) (thresholdUpperMsgs_length cfg c)
  · show thresholdLowerMsgs cfg c ++ thresholdUpperMsgs cfg c ≠ [] ↔ _
    rw [← thresholdLowerMsgs_ne_nil cfg c, ← thresholdUpperMsgs_ne_nil cfg c]
    constructor
    · intro hne
      by_contra hboth
      push_neg at hboth
      obtain ⟨hl, hu⟩ := hboth
      exact hne (by rw [hl, hu]; rfl)
    · intro hor
      cases hor with
      | inl hl =>
        intro happ
        exact hl (List.append_eq_nil.mp happ).1
      | inr hu =>
        intro happ
        exact hu (List.append_eq_nil.mp happ).2

/-- C7 (witness): a single-element series with `lower > upper` bounds
fires both checks, yielding exactly the two breach strings. -/
theorem threshold_value_and_breaches_witness :
    (ThresholdDetectorImpl.evaluate ⟨[3], none⟩
        { bounds := { lower := some 5, upper := some 1 } }).value =
      some (thresholdCurrent ⟨[3], none⟩ { bounds := { lower := some 5, upper := some 1 } }) ∧
    (ThresholdDetectorImpl.evaluate ⟨[3], none⟩
        { bounds := { lower := some 5, upper := some 1 } }).breaches =
      thresholdLowerMsgs { bounds := { lower := some 5, upper := some 1 } }
          (thresholdCurrent ⟨[3], none⟩ { bounds := { lower := some 5, upper := some 1 } }) ++
        thresholdUpperMsgs { bounds := { lower := some 5, upper := some 1 } }
          (thresholdCurrent ⟨[3], none⟩ { bounds := { lower := some 5, upper := some 1 } }) ∧
    (ThresholdDetectorImpl.evaluate ⟨[3], none⟩
        { bounds := { lower := some 5, upper := some 1 } }).breaches.length ≤ 2 ∧
    ((ThresholdDetectorImpl.evaluate ⟨[3], none⟩
        { bounds := { lower := some 5, upper := some 1 } }).breaches ≠ [] ↔
      ((∃ l, ({ bounds := { lower := some 5, upper := some 1 } } : ThresholdConfig).bounds.lower = some l ∧
          thresholdCurrent ⟨[3], none⟩ { bounds := { lower := some 5, upper := some 1 } } < l) ∨
       (∃ u, ({ bounds := { lower := some 5, upper := some 1 } } : ThresholdConfig).bounds.upper = some u ∧
          thresholdCurrent ⟨[3], none⟩ { bounds := { lower := some 5, upper := some 1 } } > u))) :=
  threshold_value_and_breaches _ _ (by decide) (by decide)

/-- C8: each detector returns `value = none, breaches = []` on a series
shorter than its minimum length — fewer than `max(2, min_points)` raw
observations for z-score and MAD, empty for threshold — and in
particular does not reach the crashing accessor calls. -/
theorem short_series_returns_empty_result
    (ctx1 ctx2 ctx3 : DetectorContext)
    (zcfg : ZScoreConfig) (mcfg : MADConfig) (tcfg : ThresholdConfig)
    (hz : (ctx1.series.length : ℤ) < max 2 zcfg.min_points)
    (hm : (ctx2.series.length : ℤ) < max 2 mcfg.min_points)
    (ht : ctx3.series = []) :
    ZScoreDetectorImpl.evaluate ctx1 zcfg = .ok { value := none, breaches := [] } ∧
    MADDetectorImpl.evaluate ctx2 mcfg = .ok { value := none, breaches := [] } ∧
    ThresholdDetectorImpl.evaluate ctx3 tcfg = { value := none, breaches := [] } := by
  refine ⟨?_, ?_, ?_⟩
  · unfold ZScoreDetectorImpl.evaluate
    rw [if_pos hz]
  · unfold MADDetectorImpl.evaluate
    rw [if_pos hm]
  · unfold ThresholdDetectorImpl.evaluate
    rw [if_pos ht]

/-- C8 (witness): a one-element series against the default z-score and
MAD configs (`min_points = 10`), and an empty series against the default
threshold config. -/
theorem short_series_witness :
    ZScoreDetectorImpl.evaluate ⟨[1], none⟩ {} = .ok { value := none, breaches := [] } ∧
    MADDetectorImpl.evaluate ⟨[1], none⟩ {} = .ok { value := none, breaches := [] } ∧
    ThresholdDetectorImpl.evaluate ⟨[], none⟩ {} = { value := none, breaches := [] } :=
  short_series_returns_empty_result ⟨[1], none⟩ ⟨[1], none⟩ ⟨[], none⟩ {} {} {}
    (by decide) (by decide) rfl

/-- C9: looking a name up right after registering an implementation
under it returns that implementation (the newest registration wins);
registering under one name does not change lookups of other names; and
looking up a name with no registration fails hard with `KeyError` rather
than returning a default. -/
theorem registry_register_lookup :
    (∀ (α : Type) (reg : String → Option α) (name : String) (d : α),
        get_detector (register_detector reg name d) name = .ok d) ∧
    (∀ (α : Type) (reg : String → Option α) (name n2 : String) (d : α),
        n2 ≠ name → get_detector (register_detector reg name d) n2 = get_detector reg n2) ∧
    (∀ (α : Type) (reg : String → Option α) (name : String),
        reg name = none → get_detector reg name = .error (.keyError name)) := by
  refine ⟨?_, ?_, ?_⟩
  · intro α reg name d
    unfold get_detector register_detector
    rw [if_pos rfl]
  · intro α reg name n2 d hne
    unfold get_detector register_detector
    rw [if_neg hne]
  · intro α reg name hnone
    unfold get_detector
    rw [hnone]

/-- C9 (witness): the registry laws at the concrete module-load
registrations. -/
theorem registry_register_lookup_witness :
    get_detector (register_detector emptyRegistry "zscore" DetectorKind.zscore) "zscore" =
      .ok DetectorKind.zscore ∧
    get_detector (register_detector loadedRegistry "zscore" DetectorKind.zscore) "mad" =
      get_detector loadedRegistry "mad" ∧
    get_detector emptyRegistry "nothing_registered_here" =
      .error (.keyError "nothing_registered_here") :=
  ⟨registry_register_lookup.1 DetectorKind emptyRegistry "zscore" DetectorKind.zscore,
   registry_register_lookup.2.1 DetectorKind loadedRegistry "zscore" "mad"
     DetectorKind.zscore (by decide),
   registry_register_lookup.2.2 DetectorKind emptyRegistry "nothing_registered_here" rfl⟩

/-- C10: `ThresholdDetectorImpl.evaluate` never reads `two_tailed`: two
threshold configs that agree on `type`, `on` and `bounds` (i.e. differ
at most in `two_tailed`) evaluate identically on every context. -/
theorem threshold_ignores_two_tailed (ctx : DetectorContext) (c1 c2 : ThresholdConfig)
    (h1 : c1.type = c2.type) (h2 : c1.«on» = c2.«on») (h3 : c1.bounds = c2.bounds) :
    ThresholdDetectorImpl.evaluate ctx c1 = ThresholdDetectorImpl.evaluate ctx c2 := by
  obtain ⟨t1, o1, b1, tt1⟩ := c1
  obtain ⟨t2, o2, b2, tt2⟩ := c2
  cases h1
  cases h2
  cases h3
  rfl

/-- C10 (witness): flipping `two_tailed` on an otherwise-identical
config leaves the threshold evaluation unchanged. -/
theorem threshold_ignores_two_tailed_witness :
    ThresholdDetectorImpl.evaluate ⟨[3], none⟩
        { bounds := { lower := some 5 }, two_tailed := true } =
      ThresholdDetectorImpl.evaluate ⟨[3], none⟩
        { bounds := { lower := some 5 }, two_tailed := false } :=
  threshold_ignores_two_tailed ⟨[3], none⟩ _ _ rfl rfl rfl
